import Mathlib

/-!
Shallow embedding of the payment submission and status reconciliation flow of
the ZakatNOW calculator (`src/scripts/payment.js`, class `SecurePayService`,
and the variant handler in `src/unnamed/part_000`).

Modelling conventions:
* JavaScript strings are `String`; a value that may be `undefined`/`null`
  (optional chaining, `URLSearchParams.get`) is `Option String`.
* JavaScript numbers reached by this flow are decimal values, modelled as `ℚ`;
  `NaN` is modelled as `none` in `Option ℚ`.  The comparison `NaN <= 0` is
  false in JavaScript, which `jsLeZero` reproduces.
* `parseFloat` is modelled on decimal literals (sign, digits, fraction,
  exponent, longest valid prefix, leading whitespace skipped); inputs with no
  parsable prefix give `none` (`NaN`).  The `Infinity` literal is not modelled:
  no claim exercises it, and it behaves like `NaN` for the `<= 0` check.
* The object-literal lookup `methodMapping[m]` follows the full JavaScript
  semantics: an own key yields its string value, a key inherited from
  `Object.prototype` (such as `toString`) yields that truthy non-string
  member — so the `|| 'fpx'` fallback does not fire for it — and only a key
  found nowhere on the chain yields `undefined` and falls back to `"fpx"`.
* `localStorage` round-trips records through JSON; the embedding abstracts the
  JSON encoding and models the stored entry as `Option (List Record)`
  (`none` = absent key, which the source maps to `'[]'`).
* DOM display regions (`paymentSuccess`, `paymentMessage`, …) are modelled as
  present, per the spec's UI collaborator surface; `showPaymentComplete`
  therefore always reaches its `savePaymentToHistory` call.
-/

/-- JavaScript truthiness of a possibly-absent string: `undefined`, `null`
and `""` are falsy, every other string is truthy. -/
def jsTruthy : Option String → Bool
  | none => false
  | some s => !(s == "")

/-- JavaScript `x || dflt` for a possibly-absent string `x`. -/
def jsOrDefault : Option String → String → String
  | none, d => d
  | some s, d => if s == "" then d else s

/-- JavaScript `x <= 0` where `x` is a number or `NaN` (`none`):
any comparison with `NaN` is false. -/
def jsLeZero : Option ℚ → Bool
  | none => false
  | some q => decide (q ≤ 0)

/-- Longest leading run of decimal digits of a character list:
returns (numeric value, number of digits, remaining characters). -/
def readDigits : List Char → Nat × Nat × List Char
  | [] => (0, 0, [])
  | c :: cs =>
    if c.isDigit then
      match readDigits cs with
      | (v, n, rest) => ((c.toNat - 48) * 10 ^ n + v, n + 1, rest)
    else (0, 0, c :: cs)

/-- Optional leading sign: returns (is-nonnegative, remaining characters). -/
def readSign : List Char → Bool × List Char
  | '+' :: cs => (true, cs)
  | '-' :: cs => (false, cs)
  | cs => (true, cs)

/-- Exponent digits after the `e`/`E` marker: the signed power of ten they
denote, or `(true, 0)` (scale by one) when no exponent digit follows the
marker (the exponent part is then not part of the parsed prefix). -/
def readExponentTail (cs : List Char) : Bool × Nat :=
  match readSign cs with
  | (epos, cs₁) =>
    match readDigits cs₁ with
    | (ev, ecount, _) =>
      if ecount = 0 then (true, 0) else (epos, ev)

/-- Optional exponent part (`e`/`E`, optional sign, digits) as the signed
power of ten it denotes; `(true, 0)` when absent. -/
def readExponent : List Char → Bool × Nat
  | 'e' :: cs => readExponentTail cs
  | 'E' :: cs => readExponentTail cs
  | _ => (true, 0)

/-- The exact rational value of a parsed decimal literal: the signed mantissa
`num / den` (`den` a power of ten) scaled by the exponent part read from
`cs`.  Built with `mkRat` over integer arithmetic so that it evaluates by
kernel reduction; `ratOfParts_eq` states the transparent field-arithmetic
formula it implements. -/
def ratOfParts (pos : Bool) (num den : Nat) (cs : List Char) : ℚ :=
  match readExponent cs with
  | (epos, ev) =>
    mkRat (if pos then ((if epos then num * 10 ^ ev else num : Nat) : ℤ)
           else -((if epos then num * 10 ^ ev else num : Nat) : ℤ))
      (if epos then den else den * 10 ^ ev)

/-- Decimal-literal parser behind `parseFloat`: optional sign, integer digits,
optional fraction, optional exponent, longest valid prefix; `none` when no
digit is found (`NaN`).  The mantissa of `i.f` is `i * 10^|f| + f` over
`10^|f|`. -/
def parseFloatCore (cs : List Char) : Option ℚ :=
  match readSign cs with
  | (pos, cs₁) =>
    match readDigits cs₁ with
    | (ipart, icount, cs₂) =>
      match cs₂ with
      | '.' :: cs₃ =>
        match readDigits cs₃ with
        | (fpart, fcount, cs₄) =>
          if icount = 0 && fcount = 0 then none
          else some (ratOfParts pos (ipart * 10 ^ fcount + fpart) (10 ^ fcount) cs₄)
      | _ =>
        if icount = 0 then none
        else some (ratOfParts pos ipart 1 cs₂)

/-- Whitespace skipped by `parseFloat` before the literal. -/
def jsWhitespace (c : Char) : Bool :=
  c == ' ' || c == '\t' || c == '\n' || c == '\r'

/-- JavaScript `parseFloat` on a string, `none` meaning `NaN`. -/
def parseFloat (s : String) : Option ℚ :=
  parseFloatCore (s.toList.dropWhile jsWhitespace)

/-- JavaScript `Number.prototype.toFixed(2)` on the parsed amount: rounds to two decimal
places, ties toward the larger value, i.e. `⌊100·q + 1/2⌋ / 100`; with
`q = q.num / q.den` that floor is the integer division
`(200·q.num + q.den) / (2·q.den)`, which is how it is computed here
(`toFixed2_some` states the transparent formula).  `NaN.toFixed(2)` is the
string `"NaN"`, modelled as `none`. -/
def toFixed2 : Option ℚ → Option ℚ
  | none => none
  | some q => some (mkRat ((200 * q.num + (q.den : ℤ)) / (2 * (q.den : ℤ))) 100)

/-- Value of the JavaScript expression `methodMapping[m] || 'fpx'`: either a
string, or a truthy non-string member that the bracket lookup found inherited
from `Object.prototype` (a function, or the prototype object itself for
`__proto__`), which the `||` passes through unchanged. -/
inductive MethodLookup where
  | str (s : String)
  | protoMember (name : String)
deriving DecidableEq

/-- The property keys every plain object literal inherits from
`Object.prototype` (including the Annex-B accessors present in browsers);
their values are functions — or, for `__proto__`, the prototype object —
and are all truthy. -/
def objectPrototypeKeys : List String :=
  ["constructor", "hasOwnProperty", "isPrototypeOf", "propertyIsEnumerable",
   "toLocaleString", "toString", "valueOf", "__proto__", "__defineGetter__",
   "__defineSetter__", "__lookupGetter__", "__lookupSetter__"]

/-- Function `mapPaymentMethod` (src/scripts/payment.js lines 134-143):
`methodMapping[internalMethod] || 'fpx'`.  An own key of the literal yields
its string value; a key inherited from `Object.prototype` yields that truthy
member, so the `|| 'fpx'` fallback does not fire; any other key yields
`undefined` and falls back to `"fpx"`. -/
def mapPaymentMethod (internalMethod : String) : MethodLookup :=
  if internalMethod == "fpx" then .str "fpx"
  else if internalMethod == "card" then .str "card"
  else if internalMethod == "wallet" then .str "boost"
  else if internalMethod == "qr" then .str "duitnow_qr"
  else if objectPrototypeKeys.contains internalMethod then
    .protoMember internalMethod
  else .str "fpx"

/-- The form fields read by `handlePaymentSubmit`: the amount input's value
(a string, `""` when empty) and the possibly-absent method radio value and
contact fields. -/
structure FormInputs where
  paymentAmount : String
  paymentMethod : Option String
  customerName : Option String
  customerEmail : Option String
  customerPhone : Option String
deriving DecidableEq

/-- The customer object of the gateway payload. -/
structure Customer where
  name : String
  email : String
  phone : String
deriving DecidableEq

/-- The gateway payload built by `handlePaymentSubmit` (lines 66-86); the
`amount` field holds the numeric content of `parseFloat(a).toFixed(2)`
(`none` = the string `"NaN"`). -/
structure Payload where
  amount : Option ℚ
  currency : String
  reference_id : String
  description : String
  customer : Customer
  method : MethodLookup
  return_url : String
  cancel_url : String
  source : String
deriving DecidableEq

/-- The amount guard of `handlePaymentSubmit` (line 47):
`!paymentAmount || parseFloat(paymentAmount) <= 0`. -/
def amountCheckFails (i : FormInputs) : Bool :=
  i.paymentAmount == "" || jsLeZero (parseFloat i.paymentAmount)

/-- Outcome of the validation prefix of `handlePaymentSubmit`. -/
inductive ValidationResult where
  | invalidAmount
  | missingMethod
  | missingEmail
  | ok (payload : Payload)
deriving DecidableEq

/-- The validation and payload-construction prefix of `handlePaymentSubmit`
(src/scripts/payment.js lines 47-86): the three guards in source order,
then the gateway payload.  `now` is `Date.now()`, `href` is
`window.location.href`. -/
def handlePaymentSubmitValidate (i : FormInputs) (now : Nat) (href : String) :
    ValidationResult :=
  if amountCheckFails i then .invalidAmount
  else if !(jsTruthy i.paymentMethod) then .missingMethod
  else if !(jsTruthy i.customerEmail) then .missingEmail
  else .ok {
    amount := toFixed2 (parseFloat i.paymentAmount)
    currency := "MYR"
    reference_id := "ZAKAT-" ++ toString now
    description := "Pembayaran Zakat"
    customer := {
      name := jsOrDefault i.customerName "Pembayar Zakat"
      email := i.customerEmail.getD ""
      phone := jsOrDefault i.customerPhone "" }
    method := mapPaymentMethod (i.paymentMethod.getD "")
    return_url := href ++ "?payment_status=completed"
    cancel_url := href ++ "?payment_status=cancelled"
    source := "ZakatNOW Calculator" }

/-- A payment result / gateway status payload as it flows into the history
log: the fields the code reads, each possibly absent in the JSON. -/
structure Payment where
  success : Bool := false
  status : Option String := none
  transaction_id : Option String := none
  amount : Option String := none
  method : Option String := none
  date : Option String := none
deriving DecidableEq

/-- A history entry written by `savePaymentToHistory`: the payment spread
together with the local receipt timestamp (`new Date().getTime()`). -/
structure Record where
  payment : Payment
  timestamp : Nat
deriving DecidableEq

/-- Reading the `zakatPaymentHistory` entry back:
`JSON.parse(localStorage.getItem('zakatPaymentHistory') || '[]')`; an absent
key is the empty array. -/
def getHistory : Option (List Record) → List Record
  | none => []
  | some l => l

/-- Function `savePaymentToHistory` (src/scripts/payment.js lines 270-277, identical in
src/unnamed/part_000 lines 203-210): read the stored log (absent = empty),
push the payment with a timestamp, write the log back. -/
def savePaymentToHistory (storage : Option (List Record)) (p : Payment)
    (now : Nat) : Option (List Record) :=
  some (getHistory storage ++ [{ payment := p, timestamp := now }])

/-- The browser-visible page state the flow touches: the query parameters of
the visible location, the `zakatPaymentHistory` storage entry, and the
location the browser is navigated to. -/
structure PageState where
  search : List (String × String)
  history : Option (List Record)
  href : String
deriving DecidableEq

/-- JavaScript `URLSearchParams.get`: the first value under the name, `null` when the
name is absent. -/
def getParam (ps : List (String × String)) (k : String) : Option String :=
  (ps.find? (fun q => q.1 == k)).map (fun q => q.2)

/-- JavaScript `URLSearchParams.delete`: drops every value under the name. -/
def deleteParam (ps : List (String × String)) (k : String) :
    List (String × String) :=
  ps.filter (fun q => !(q.1 == k))

/-- Settled result of `createPaymentSession`'s fetch (lines 149-164): either
the parsed JSON response, or a rejected transport promise, which the source
converts to a thrown `Network error when connecting to payment gateway`. -/
inductive CreateSessionResult where
  | resp (success : Bool) (checkout_url : Option String) (message : Option String)
  | networkError
deriving DecidableEq

/-- The live-mode (`isTestMode = false`) branch of `handlePaymentSubmit`
(src/scripts/payment.js lines 113-128 composed with lines 47-86): validation,
then `createPaymentSession`; on `response.success && response.checkout_url`
the browser is navigated to the checkout URL, otherwise the thrown
`response.message || 'Payment creation failed'` (or the network error) is
shown as `'Pembayaran gagal: ' + error.message`.  Returns the new page state
and the message shown, `none` when control leaves by navigation. -/
def handlePaymentSubmitLive (st : PageState) (i : FormInputs) (now : Nat)
    (g : CreateSessionResult) : PageState × Option (String × String) :=
  match handlePaymentSubmitValidate i now st.href with
  | .invalidAmount => (st, some ("error", "Sila masukkan jumlah pembayaran yang sah."))
  | .missingMethod => (st, some ("error", "Sila pilih kaedah pembayaran."))
  | .missingEmail => (st, some ("error", "Sila masukkan alamat emel."))
  | .ok _ =>
    match g with
    | .resp success checkout_url message =>
      if success && jsTruthy checkout_url then
        ({ st with href := checkout_url.getD "" }, none)
      else
        (st, some ("error", "Pembayaran gagal: " ++ jsOrDefault message "Payment creation failed"))
    | .networkError =>
      (st, some ("error", "Pembayaran gagal: Network error when connecting to payment gateway"))

/-- Settled result of `checkPaymentStatus`'s fetch (lines 170-183): the parsed
JSON status payload, or a transport failure, which the source converts to a
thrown `Network error when checking payment status`. -/
inductive StatusLookupResult where
  | resp (r : Payment)
  | networkError
deriving DecidableEq

/-- Result of one run of the reconciliation handler: which payment id the
status lookup was called with (if any), the resulting page state, and the
`(type, text)` message shown via `showPaymentMessage` (if any). -/
structure ReconResult where
  lookedUp : Option String
  state : PageState
  message : Option (String × String)
deriving DecidableEq

/-- Function `checkPaymentStatusFromUrl` (src/scripts/payment.js lines 300-332).
With `payment_status=completed` and a truthy `payment_id`, the status lookup
runs: a `success && status === 'paid'` response reaches
`showPaymentComplete`, which persists the record, and both markers are
deleted from the visible location; any other response shows a
verification-failure message and changes nothing; a transport failure shows
`'Ralat pengesahan: ' + error.message`.  With `payment_status=cancelled` an
informational message is shown and the `payment_status` marker is deleted.
Otherwise nothing happens.  `gw` is the settled lookup result, `now` the
receipt timestamp. -/
def checkPaymentStatusFromUrl (st : PageState) (gw : StatusLookupResult)
    (now : Nat) : ReconResult :=
  let paymentStatus := getParam st.search "payment_status"
  let paymentId := getParam st.search "payment_id"
  if paymentStatus == some "completed" && jsTruthy paymentId then
    match gw with
    | .resp r =>
      if r.success && (r.status == some "paid") then
        { lookedUp := paymentId
          state := { st with
            history := savePaymentToHistory st.history r now
            search := deleteParam (deleteParam st.search "payment_status") "payment_id" }
          message := none }
      else
        { lookedUp := paymentId
          state := st
          message := some ("error", "Pengesahan pembayaran gagal. Sila hubungi pihak pentadbir.") }
    | .networkError =>
      { lookedUp := paymentId
        state := st
        message := some ("error", "Ralat pengesahan: Network error when checking payment status") }
  else if paymentStatus == some "cancelled" then
    { lookedUp := none
      state := { st with search := deleteParam st.search "payment_status" }
      message := some ("info", "Pembayaran dibatalkan.") }
  else
    { lookedUp := none, state := st, message := none }

/-- Outcome of the variant handler's validation (src/unnamed/part_000): either
an error message, or the handler proceeds to payment processing
(`showPaymentProcessing(true)` followed by the simulated gateway call). -/
inductive VariantOutcome where
  | error (msg : String)
  | processing (amount : String) (method : String)
deriving DecidableEq

/-- Function `handlePaymentSubmit` of the variant file (src/unnamed/part_000 lines
38-77): it reads only the amount and the checked method, guards them exactly
as the main file does, and then proceeds to processing — no customer email is
read and no email guard exists. -/
def variantHandlePaymentSubmit (i : FormInputs) : VariantOutcome :=
  if amountCheckFails i then .error "Sila masukkan jumlah pembayaran yang sah."
  else if !(jsTruthy i.paymentMethod) then .error "Sila pilih kaedah pembayaran."
  else .processing i.paymentAmount (i.paymentMethod.getD "")

/-- A concrete page state for instantiations: the browser just returned from
the gateway redirect with the completion markers in the query string and no
history stored yet. -/
def sampleReturnState : PageState :=
  { search := [("payment_status", "completed"), ("payment_id", "PAY1")]
    history := none
    href := "https://zakat.example/" }

/-- A concrete paid status-lookup response for instantiations. -/
def samplePaidResponse : Payment :=
  { success := true, status := some "paid", transaction_id := some "SPM1",
    amount := some "150.00", method := some "card",
    date := some "2026-10-12T00:00:00Z" }

/-- A concrete not-yet-paid status-lookup response for instantiations. -/
def samplePendingResponse : Payment :=
  { success := true, status := some "pending" }

/-- Deleting a parameter makes it unreadable: `get` after `delete` is null. -/
theorem getParam_deleteParam_self (ps : List (String × String)) (k : String) :
    getParam (deleteParam ps k) k = none := by
  simp only [getParam, deleteParam, Option.map_eq_none', List.find?_eq_none,
    List.mem_filter]
  intro x hx
  simpa using hx.2

/-- Deleting one parameter does not make another readable: absence survives
a `delete` of a different name. -/
theorem getParam_deleteParam_of_none (ps : List (String × String)) (k k' : String)
    (h : getParam ps k = none) : getParam (deleteParam ps k') k = none := by
  simp only [getParam, Option.map_eq_none', List.find?_eq_none] at h ⊢
  intro x hx
  exact h x (List.mem_of_mem_filter hx)

/-- Claim C1 (code bug): the amount guard does not reject a non-empty
non-numeric amount.  `parseFloat("abc")` is `NaN`, and `NaN <= 0` is false,
so `!paymentAmount || parseFloat(paymentAmount) <= 0` is false for `"abc"`:
the submission proceeds and the gateway payload carries amount
`"NaN"` (`none`) instead of failing with `InvalidAmount`. -/
theorem amountCheck_nonNumeric_bug :
    parseFloat "abc" = none ∧
    amountCheckFails { paymentAmount := "abc", paymentMethod := some "fpx",
                       customerName := none, customerEmail := some "a@b.com",
                       customerPhone := none } = false ∧
    handlePaymentSubmitValidate { paymentAmount := "abc",
                                  paymentMethod := some "fpx",
                                  customerName := none,
                                  customerEmail := some "a@b.com",
                                  customerPhone := none } 0
        "https://zakat.example/" =
      .ok { amount := none
            currency := "MYR"
            reference_id := "ZAKAT-0"
            description := "Pembayaran Zakat"
            customer := { name := "Pembayar Zakat", email := "a@b.com", phone := "" }
            method := .str "fpx"
            return_url := "https://zakat.example/?payment_status=completed"
            cancel_url := "https://zakat.example/?payment_status=cancelled"
            source := "ZakatNOW Calculator" } := by
  refine ⟨rfl, rfl, ?_⟩
  decide

/-- Claim C3: the three guards of `handlePaymentSubmit` run in source order —
amount, then method, then email — and whenever the amount and method guards
pass but the customer email is absent or empty, the submission fails with
the `MissingEmail` message path. -/
theorem validate_order_missingEmail (i : FormInputs) (now : Nat) (href : String) :
    (amountCheckFails i = true →
      handlePaymentSubmitValidate i now href = .invalidAmount) ∧
    (amountCheckFails i = false → jsTruthy i.paymentMethod = false →
      handlePaymentSubmitValidate i now href = .missingMethod) ∧
    (amountCheckFails i = false → jsTruthy i.paymentMethod = true →
      jsTruthy i.customerEmail = false →
      handlePaymentSubmitValidate i now href = .missingEmail) := by
  refine ⟨fun hA => ?_, fun hA hM => ?_, fun hA hM hE => ?_⟩
  · simp [handlePaymentSubmitValidate, hA]
  · simp [handlePaymentSubmitValidate, hA, hM]
  · simp [handlePaymentSubmitValidate, hA, hM, hE]

/-- Witness for claim C3: amount `"50"` and method `card` pass, the email
field is absent, and the submission fails with `MissingEmail`. -/
theorem validate_order_missingEmail_instance :
    handlePaymentSubmitValidate { paymentAmount := "50",
                                  paymentMethod := some "card",
                                  customerName := none,
                                  customerEmail := none,
                                  customerPhone := none } 7
        "https://zakat.example/" = .missingEmail :=
  (validate_order_missingEmail { paymentAmount := "50",
                                 paymentMethod := some "card",
                                 customerName := none,
                                 customerEmail := none,
                                 customerPhone := none } 7
      "https://zakat.example/").2.2 (by decide) (by decide) (by decide)

/-- Claim C6: the history log is append-only.  Appending via
`savePaymentToHistory` extends the read-back log by exactly the new record at
the end, the previously stored records are read back unchanged and in order
(they are the prefix of the new log), the log grows by exactly one, and an
absent storage key reads back as the empty array. -/
theorem savePaymentToHistory_appendOnly (storage : Option (List Record))
    (p : Payment) (now : Nat) :
    getHistory (savePaymentToHistory storage p now)
      = getHistory storage ++ [{ payment := p, timestamp := now }] ∧
    (getHistory (savePaymentToHistory storage p now)).take (getHistory storage).length
      = getHistory storage ∧
    (getHistory (savePaymentToHistory storage p now)).length
      = (getHistory storage).length + 1 ∧
    getHistory (none : Option (List Record)) = [] := by
  refine ⟨rfl, ?_, ?_, rfl⟩
  · exact List.take_left _ _
  · simp [savePaymentToHistory, getHistory]

/-- Claim C9: the variant handler in `src/unnamed/part_000` has no email
guard: whenever the amount and method guards pass it proceeds to payment
processing, and its outcome is independent of the customer email field
(which it never reads). -/
theorem variant_submit_noEmailCheck (i : FormInputs)
    (hA : amountCheckFails i = false) (hM : jsTruthy i.paymentMethod = true) :
    variantHandlePaymentSubmit i
      = .processing i.paymentAmount (i.paymentMethod.getD "") ∧
    ∀ e : Option String,
      variantHandlePaymentSubmit { i with customerEmail := e }
        = variantHandlePaymentSubmit i := by
  constructor
  · simp [variantHandlePaymentSubmit, hA, hM]
  · intro e
    simp [variantHandlePaymentSubmit, amountCheckFails, jsTruthy]

/-- Witness for claim C9: a valid amount and a selected method with the email
absent is accepted by the variant handler and proceeds to processing, and
setting the email field changes nothing. -/
theorem variant_submit_noEmailCheck_instance :
    variantHandlePaymentSubmit { paymentAmount := "120.50",
                                 paymentMethod := some "fpx",
                                 customerName := none,
                                 customerEmail := none,
                                 customerPhone := none }
      = .processing "120.50" "fpx" ∧
    variantHandlePaymentSubmit { paymentAmount := "120.50",
                                 paymentMethod := some "fpx",
                                 customerName := none,
                                 customerEmail := some "",
                                 customerPhone := none }
      = .processing "120.50" "fpx" := by
  have h := variant_submit_noEmailCheck { paymentAmount := "120.50",
                                          paymentMethod := some "fpx",
                                          customerName := none,
                                          customerEmail := none,
                                          customerPhone := none }
    (by decide) (by decide)
  exact ⟨h.1, by rw [h.2 (some "")]; exact h.1⟩

set_option linter.unusedTactic false in
/-- Function `ratOfParts` implements the transparent field-arithmetic reading of a
parsed literal: signed mantissa over its power-of-ten denominator, scaled by
the exponent. -/
theorem ratOfParts_eq (pos : Bool) (num den : ℕ) (epos : Bool) (ev : ℕ)
    (cs : List Char) (h : readExponent cs = (epos, ev)) :
    ratOfParts pos num den cs
      = (if pos then (num : ℚ) else -(num : ℚ)) / (den : ℚ)
          * (if epos then (10 : ℚ) ^ ev else 1 / (10 : ℚ) ^ ev) := by
  rw [ratOfParts, h]
  rcases pos <;> rcases epos <;>
    simp [Rat.mkRat_eq_divInt, Rat.divInt_eq_div] <;> push_cast <;> ring

/-- Function `toFixed2` implements the transparent rounding formula
`⌊100·q + 1/2⌋ / 100` (round to two decimals, ties toward the larger
value). -/
theorem toFixed2_some (q : ℚ) :
    toFixed2 (some q) = some (((⌊q * 100 + 1 / 2⌋ : ℤ) : ℚ) / 100) := by
  have hden : (q.den : ℚ) ≠ 0 := by exact_mod_cast (Rat.den_pos q).ne'
  have hnum : (q.num : ℚ) = q * (q.den : ℚ) :=
    (div_eq_iff hden).mp (Rat.num_div_den q)
  have h2 : ((2 * q.den : ℕ) : ℚ) ≠ 0 := by
    exact_mod_cast Nat.mul_ne_zero (by norm_num) (Rat.den_pos q).ne'
  have hq : q * 100 + 1 / 2
      = ((200 * q.num + (q.den : ℤ) : ℤ) : ℚ) / ((2 * q.den : ℕ) : ℚ) := by
    rw [eq_div_iff h2]
    push_cast
    linear_combination (-200 : ℚ) * hnum
  simp only [toFixed2]
  rw [hq, Rat.floor_intCast_div_natCast, Rat.mkRat_eq_divInt, Rat.divInt_eq_div]
  push_cast
  ring_nf

/-- Claim C4 counterexample, two concrete failures of the claim as stated.
The empty string is a method code outside `{fpx, card, wallet, qr}` for
which the submission does not succeed: the checked-radio value `""` is
falsy, so the method guard fires with `MissingMethod` before
`mapPaymentMethod` is ever consulted.  And `"toString"` is a method code
outside the set for which the translation does not return `"fpx"`: the
bracket lookup finds the truthy `Object.prototype.toString` function
inherited by the object literal, so the `|| 'fpx'` fallback never fires and
the inherited member is returned instead. -/
theorem methodFallback_counterexample :
    (["fpx", "card", "wallet", "qr"].contains "" = false ∧
      handlePaymentSubmitValidate { paymentAmount := "100",
                                    paymentMethod := some "",
                                    customerName := none,
                                    customerEmail := some "a@b.com",
                                    customerPhone := none } 0
          "https://zakat.example/" = .missingMethod) ∧
    (["fpx", "card", "wallet", "qr"].contains "toString" = false ∧
      mapPaymentMethod "toString" = .protoMember "toString" ∧
      mapPaymentMethod "toString" ≠ .str "fpx") := by
  refine ⟨⟨rfl, by decide⟩, rfl, rfl, by decide⟩

/-- Claim C4 (amended): the translation table maps fpx to fpx, card to card,
wallet to the wallet-provider default boost, and qr to the QR-provider
default duitnow_qr.  Every non-empty method code outside the set that is
not a key inherited from `Object.prototype` does not fail but returns
`"fpx"`, and a submission with valid amount and email still succeeds for it,
with the gateway-facing method `"fpx"`.  A code that is an inherited key
instead yields that truthy inherited member (the fallback never fires), and
the empty code fails the submission with `MissingMethod` before the
translation is consulted. -/
theorem methodFallback_spec (m : String) (hne : m ≠ "") (h1 : m ≠ "fpx")
    (h2 : m ≠ "card") (h3 : m ≠ "wallet") (h4 : m ≠ "qr")
    (hpr : objectPrototypeKeys.contains m = false)
    (i : FormInputs) (hm : i.paymentMethod = some m)
    (hA : amountCheckFails i = false) (hE : jsTruthy i.customerEmail = true)
    (now : Nat) (href : String) :
    mapPaymentMethod "fpx" = .str "fpx" ∧
    mapPaymentMethod "card" = .str "card" ∧
    mapPaymentMethod "wallet" = .str "boost" ∧
    mapPaymentMethod "qr" = .str "duitnow_qr" ∧
    mapPaymentMethod m = .str "fpx" ∧
    (∃ p : Payload, handlePaymentSubmitValidate i now href = .ok p ∧
      p.method = .str "fpx") ∧
    ∀ k : String, objectPrototypeKeys.contains k = true →
      mapPaymentMethod k = .protoMember k := by
  have hpr2 : m ∉ objectPrototypeKeys := by simpa using hpr
  have hmap : mapPaymentMethod m = .str "fpx" := by
    simp [mapPaymentMethod, beq_iff_eq, h1, h2, h3, h4, hpr2]
  have hMm : jsTruthy (some m) = true := by simp [jsTruthy, beq_iff_eq, hne]
  refine ⟨rfl, rfl, rfl, rfl, hmap, ?_, ?_⟩
  · simp [handlePaymentSubmitValidate, hA, hE, hm, hMm, hmap]
  · intro k hk
    have hk2 : k ∈ objectPrototypeKeys := by simpa using hk
    fin_cases hk2 <;> decide

/-- Witness for claim C4: the unrecognized non-empty, non-inherited code
`"zzz"` maps to `"fpx"` and the submission succeeds with gateway method
`"fpx"`, while the inherited key `"valueOf"` yields the inherited member. -/
theorem methodFallback_instance :
    mapPaymentMethod "zzz" = .str "fpx" ∧
    (∃ p : Payload,
      handlePaymentSubmitValidate { paymentAmount := "100",
                                    paymentMethod := some "zzz",
                                    customerName := none,
                                    customerEmail := some "a@b.com",
                                    customerPhone := none } 0
          "https://zakat.example/" = .ok p ∧
      p.method = .str "fpx") ∧
    mapPaymentMethod "valueOf" = .protoMember "valueOf" := by
  have h := methodFallback_spec "zzz" (by decide) (by decide) (by decide)
    (by decide) (by decide) (by decide)
    { paymentAmount := "100", paymentMethod := some "zzz",
      customerName := none, customerEmail := some "a@b.com",
      customerPhone := none } rfl (by decide) rfl 0 "https://zakat.example/"
  exact ⟨h.2.2.2.2.1, h.2.2.2.2.2.1, h.2.2.2.2.2.2 "valueOf" (by decide)⟩

/-- Claim C5: in live mode, once validation passes, a gateway response with
`success` and a truthy `checkout_url` navigates the browser to that URL and
writes no history record; any other response fails with the gateway's
message (default `Payment creation failed`) behind the `Pembayaran gagal`
prefix; a transport failure fails with the network-error message.  No branch
touches the history log. -/
theorem liveSubmit_spec (st : PageState) (i : FormInputs) (now : Nat)
    (g : CreateSessionResult) (p : Payload)
    (hv : handlePaymentSubmitValidate i now st.href = .ok p) :
    (∀ (success : Bool) (url msg : Option String), g = .resp success url msg →
      ((success && jsTruthy url) = true →
        handlePaymentSubmitLive st i now g
          = ({ st with href := url.getD "" }, none) ∧
        (handlePaymentSubmitLive st i now g).1.history = st.history ∧
        (handlePaymentSubmitLive st i now g).1.search = st.search) ∧
      ((success && jsTruthy url) = false →
        handlePaymentSubmitLive st i now g
          = (st, some ("error",
              "Pembayaran gagal: " ++ jsOrDefault msg "Payment creation failed")))) ∧
    (g = .networkError →
      handlePaymentSubmitLive st i now g
        = (st, some ("error",
            "Pembayaran gagal: Network error when connecting to payment gateway"))) := by
  refine ⟨fun success url msg hg => ⟨fun hok => ?_, fun hbad => ?_⟩, fun hg => ?_⟩
  · subst hg
    refine ⟨?_, ?_, ?_⟩ <;> simp [handlePaymentSubmitLive, hv, hok]
  · subst hg
    simp [handlePaymentSubmitLive, hv, hbad]
  · subst hg
    simp [handlePaymentSubmitLive, hv]

/-- Witness for claim C5: amount `"150.00"`, method `card`, email
`a@b.com`, response `success` with checkout URL `https://gw/x`: the browser
is sent to `https://gw/x` and the history log is untouched. -/
theorem liveSubmit_instance :
    handlePaymentSubmitLive
        { search := [], history := none, href := "https://zakat.example/" }
        { paymentAmount := "150.00", paymentMethod := some "card",
          customerName := none, customerEmail := some "a@b.com",
          customerPhone := none } 0
        (.resp true (some "https://gw/x") none)
      = ({ search := [], history := none, href := "https://gw/x" }, none) := by
  have h := (liveSubmit_spec
      { search := [], history := none, href := "https://zakat.example/" }
      { paymentAmount := "150.00", paymentMethod := some "card",
        customerName := none, customerEmail := some "a@b.com",
        customerPhone := none } 0
      (.resp true (some "https://gw/x") none)
      { amount := some 150
        currency := "MYR"
        reference_id := "ZAKAT-0"
        description := "Pembayaran Zakat"
        customer := { name := "Pembayar Zakat", email := "a@b.com", phone := "" }
        method := .str "card"
        return_url := "https://zakat.example/?payment_status=completed"
        cancel_url := "https://zakat.example/?payment_status=cancelled"
        source := "ZakatNOW Calculator" } (by decide)).1
    true (some "https://gw/x") none rfl
  exact (h.1 (by decide)).1

/-- Claim C2: with `payment_status=completed` and a truthy `payment_id`, the
reconciliation handler calls the status lookup with that id; on a
`success`/`paid` response it appends exactly one new record to the history
and deletes both markers from the visible location; on any other response,
and on transport failure, it surfaces an error message and changes
nothing. -/
theorem reconcile_completed_paid_spec (st : PageState) (gw : StatusLookupResult)
    (now : Nat)
    (hs : getParam st.search "payment_status" = some "completed")
    (hid : jsTruthy (getParam st.search "payment_id") = true) :
    (checkPaymentStatusFromUrl st gw now).lookedUp
      = getParam st.search "payment_id" ∧
    (∀ r : Payment, gw = .resp r → (r.success && (r.status == some "paid")) = true →
      (checkPaymentStatusFromUrl st gw now).state.history
        = savePaymentToHistory st.history r now ∧
      getHistory (checkPaymentStatusFromUrl st gw now).state.history
        = getHistory st.history ++ [{ payment := r, timestamp := now }] ∧
      getParam (checkPaymentStatusFromUrl st gw now).state.search "payment_status"
        = none ∧
      getParam (checkPaymentStatusFromUrl st gw now).state.search "payment_id"
        = none) ∧
    (∀ r : Payment, gw = .resp r → (r.success && (r.status == some "paid")) = false →
      (checkPaymentStatusFromUrl st gw now).message
        = some ("error", "Pengesahan pembayaran gagal. Sila hubungi pihak pentadbir.") ∧
      (checkPaymentStatusFromUrl st gw now).state = st) ∧
    (gw = .networkError →
      (checkPaymentStatusFromUrl st gw now).message
        = some ("error", "Ralat pengesahan: Network error when checking payment status") ∧
      (checkPaymentStatusFromUrl st gw now).state = st) := by
  refine ⟨?_, fun r hg hp => ?_, fun r hg hp => ?_, fun hg => ?_⟩
  · cases gw with
    | resp r =>
      by_cases hp : (r.success && (r.status == some "paid")) = true
      · simp [checkPaymentStatusFromUrl, hs, hid, hp]
      · rw [Bool.not_eq_true] at hp
        simp [checkPaymentStatusFromUrl, hs, hid, hp]
    | networkError => simp [checkPaymentStatusFromUrl, hs, hid]
  · subst hg
    have hrun : checkPaymentStatusFromUrl st (.resp r) now
        = { lookedUp := getParam st.search "payment_id"
            state := { st with
              history := savePaymentToHistory st.history r now
              search := deleteParam (deleteParam st.search "payment_status")
                "payment_id" }
            message := none } := by
      simp [checkPaymentStatusFromUrl, hs, hid, hp]
    rw [hrun]
    exact ⟨rfl, rfl,
      getParam_deleteParam_of_none _ _ _ (getParam_deleteParam_self _ _),
      getParam_deleteParam_self _ _⟩
  · subst hg
    simp [checkPaymentStatusFromUrl, hs, hid, hp]
  · subst hg
    simp [checkPaymentStatusFromUrl, hs, hid]

/-- Witness for claim C2: on the sample return state a paid lookup response
appends exactly the one new record and both markers become unreadable. -/
theorem reconcile_completed_paid_instance :
    getHistory (checkPaymentStatusFromUrl sampleReturnState
        (.resp samplePaidResponse) 5).state.history
      = [{ payment := samplePaidResponse, timestamp := 5 }] ∧
    getParam (checkPaymentStatusFromUrl sampleReturnState
        (.resp samplePaidResponse) 5).state.search "payment_status" = none ∧
    getParam (checkPaymentStatusFromUrl sampleReturnState
        (.resp samplePaidResponse) 5).state.search "payment_id" = none := by
  have h := (reconcile_completed_paid_spec sampleReturnState
      (.resp samplePaidResponse) 5 (by decide) (by decide)).2.1
      samplePaidResponse rfl (by decide)
  exact ⟨by simpa [getHistory, sampleReturnState] using h.2.1, h.2.2.1, h.2.2.2⟩

/-- Claim C7: with `payment_status=cancelled` the reconciliation handler
appends no history record, shows the informational cancellation message,
makes no status lookup, and deletes the `payment_status` marker from the
visible location. -/
theorem reconcile_cancelled_spec (st : PageState) (gw : StatusLookupResult)
    (now : Nat)
    (hs : getParam st.search "payment_status" = some "cancelled") :
    (checkPaymentStatusFromUrl st gw now).state.history = st.history ∧
    (checkPaymentStatusFromUrl st gw now).message
      = some ("info", "Pembayaran dibatalkan.") ∧
    (checkPaymentStatusFromUrl st gw now).lookedUp = none ∧
    getParam (checkPaymentStatusFromUrl st gw now).state.search "payment_status"
      = none := by
  have hrun : checkPaymentStatusFromUrl st gw now
      = { lookedUp := none
          state := { st with search := deleteParam st.search "payment_status" }
          message := some ("info", "Pembayaran dibatalkan.") } := by
    cases gw <;> simp [checkPaymentStatusFromUrl, hs]
  rw [hrun]
  exact ⟨rfl, rfl, rfl, getParam_deleteParam_self _ _⟩

/-- Witness for claim C7: a cancelled return with a non-empty stored history
keeps the history as it was, shows the message, and strips the marker. -/
theorem reconcile_cancelled_instance :
    (checkPaymentStatusFromUrl
        { search := [("payment_status", "cancelled")]
          history := some [{ payment := samplePaidResponse, timestamp := 1 }]
          href := "https://zakat.example/" } .networkError 9).state.history
      = some [{ payment := samplePaidResponse, timestamp := 1 }] ∧
    (checkPaymentStatusFromUrl
        { search := [("payment_status", "cancelled")]
          history := some [{ payment := samplePaidResponse, timestamp := 1 }]
          href := "https://zakat.example/" } .networkError 9).message
      = some ("info", "Pembayaran dibatalkan.") ∧
    getParam (checkPaymentStatusFromUrl
        { search := [("payment_status", "cancelled")]
          history := some [{ payment := samplePaidResponse, timestamp := 1 }]
          href := "https://zakat.example/" } .networkError 9).state.search
        "payment_status" = none := by
  have h := reconcile_cancelled_spec
    { search := [("payment_status", "cancelled")]
      history := some [{ payment := samplePaidResponse, timestamp := 1 }]
      href := "https://zakat.example/" } .networkError 9 (by decide)
  exact ⟨h.1, h.2.1, h.2.2.2⟩

/-- Claim C8: with `payment_status=completed` but a falsy `payment_id`
(absent or empty), the reconciliation handler is a no-op: no status lookup,
no history change, no message, state untouched. -/
theorem reconcile_completed_noId_noop (st : PageState) (gw : StatusLookupResult)
    (now : Nat)
    (hs : getParam st.search "payment_status" = some "completed")
    (hid : jsTruthy (getParam st.search "payment_id") = false) :
    checkPaymentStatusFromUrl st gw now
      = { lookedUp := none, state := st, message := none } := by
  cases gw <;> simp [checkPaymentStatusFromUrl, hs, hid]

/-- Witness for claim C8: `payment_status=completed` with no `payment_id`
parameter at all leaves everything untouched. -/
theorem reconcile_completed_noId_instance :
    checkPaymentStatusFromUrl
        { search := [("payment_status", "completed")]
          history := none
          href := "https://zakat.example/" } .networkError 3
      = { lookedUp := none
          state := { search := [("payment_status", "completed")]
                     history := none
                     href := "https://zakat.example/" }
          message := none } :=
  reconcile_completed_noId_noop
    { search := [("payment_status", "completed")]
      history := none
      href := "https://zakat.example/" } .networkError 3 (by decide) (by decide)

/-- Claim C10: when the status lookup after `payment_status=completed`
returns a response that is not `success` with status `paid`, the page state
— in particular the visible location's query parameters — is left exactly as
it was, so running the reconciliation handler again on the resulting state
performs the status lookup with the same payment id. -/
theorem reconcile_nonPaid_preservesParams (st : PageState) (r : Payment)
    (now : Nat)
    (hs : getParam st.search "payment_status" = some "completed")
    (hid : jsTruthy (getParam st.search "payment_id") = true)
    (hnp : (r.success && (r.status == some "paid")) = false) :
    (checkPaymentStatusFromUrl st (.resp r) now).state = st ∧
    (checkPaymentStatusFromUrl st (.resp r) now).state.search = st.search ∧
    ∀ (gw' : StatusLookupResult) (now' : Nat),
      (checkPaymentStatusFromUrl
          (checkPaymentStatusFromUrl st (.resp r) now).state gw' now').lookedUp
        = getParam st.search "payment_id" := by
  have hrun : checkPaymentStatusFromUrl st (.resp r) now
      = { lookedUp := getParam st.search "payment_id"
          state := st
          message := some ("error",
            "Pengesahan pembayaran gagal. Sila hubungi pihak pentadbir.") } := by
    simp [checkPaymentStatusFromUrl, hs, hid, hnp]
  rw [hrun]
  refine ⟨rfl, rfl, fun gw' now' => ?_⟩
  cases gw' with
  | resp r2 =>
    by_cases hp : (r2.success && (r2.status == some "paid")) = true
    · simp [checkPaymentStatusFromUrl, hs, hid, hp]
    · rw [Bool.not_eq_true] at hp
      simp [checkPaymentStatusFromUrl, hs, hid, hp]
  | networkError => simp [checkPaymentStatusFromUrl, hs, hid]

/-- Witness for claim C10: a pending (not paid) lookup response on the
sample return state leaves the state unchanged, and a rerun looks up the
same payment id `PAY1`. -/
theorem reconcile_nonPaid_preservesParams_instance :
    (checkPaymentStatusFromUrl sampleReturnState
        (.resp samplePendingResponse) 4).state = sampleReturnState ∧
    (checkPaymentStatusFromUrl
        (checkPaymentStatusFromUrl sampleReturnState
          (.resp samplePendingResponse) 4).state .networkError 6).lookedUp
      = some "PAY1" := by
  have h := reconcile_nonPaid_preservesParams sampleReturnState
    samplePendingResponse 4 (by decide) (by decide) (by decide)
  exact ⟨h.1, by rw [h.2.2 .networkError 6]; decide⟩
